import Mathlib

/-!
Verification of the shotdeck-scraper repository
(`src/shotdeck_scraper/scraper.py`) against its natural-language
specification.

The Python source is shallowly embedded: pure helpers become Lean
functions, the selenium-driven parts are modelled by deterministic
environments (`ScrapeEnv`, `FetchEnv`, DOM record types) that supply
what the browser session would return, with a raised exception at an
extraction site modelled by `Option.none`.  Python floats are modelled
by exact rationals (`ℚ`), machine integers by `Int`/`Nat` (Python
integers are unbounded, so no wrap-around is involved).
-/

namespace ShotdeckScraper

/-! ## Python string primitives

`get_text` embeds `get_text(e)` (scraper.py line 88-89):
`re.sub(r"\s+", " ", e.text.strip())`, applied here to the element's
raw text.  `normalize_field_name` embeds lines 91-95.  Whitespace is
modelled by `Char.isWhitespace` (space, tab, newline, carriage return);
the rarely-rendered `\x0b`/`\x0c` and non-ASCII whitespace are outside
the model. -/

/-- Python `str.strip()`: drop leading and trailing whitespace. -/
def pyStrip (s : String) : String :=
  String.mk (((s.toList.dropWhile Char.isWhitespace).reverse.dropWhile
    Char.isWhitespace).reverse)

/-- Replace every maximal run of characters satisfying `p` by the single
character `rep`; the `Bool` argument records whether the previous kept
character came from such a run (this is the state of `re.sub` replacing
`r"\s+"`-style patterns). -/
def squeezeRuns (p : Char → Bool) (rep : Char) : List Char → Bool → List Char
  | [], _ => []
  | c :: cs, inRun =>
    if p c then
      if inRun then squeezeRuns p rep cs true
      else rep :: squeezeRuns p rep cs true
    else c :: squeezeRuns p rep cs false

/-- scraper.py `get_text`: strip, then collapse every whitespace run to a
single space. -/
def get_text (raw : String) : String :=
  String.mk (squeezeRuns Char.isWhitespace ' ' (pyStrip raw).toList false)

/-- Python `str.rstrip(":")`: drop every trailing colon. -/
def pyRstripColon (s : String) : String :=
  String.mk ((s.toList.reverse.dropWhile (fun c => c = ':')).reverse)

/-- Python `str.lower()` (on the ASCII labels the scraper meets). -/
def pyLower (s : String) : String :=
  String.mk (s.toList.map Char.toLower)

/-- scraper.py `normalize_field_name`: strip, drop trailing colons,
lowercase, collapse runs of whitespace or `/` to `_`, turn `-` into `_`. -/
def normalize_field_name (label : String) : String :=
  let l1 := pyRstripColon (pyStrip label)
  let l2 := String.mk (squeezeRuns (fun c => c.isWhitespace || c = '/') '_'
    (pyLower l1).toList false)
  String.mk (l2.toList.map (fun c => if c = '-' then '_' else c))

/-- Python `x or ""` applied to an optional attribute value: selenium's
`get_attribute` yields `None` (here `none`) for a missing attribute, and
`or ""` turns both `None` and `""` into `""`. -/
def pyOrEmpty (o : Option String) : String := o.getD ""

/-! ## Aspect-ratio classifier (`calculate_image_metadata`, lines 248-290) -/

/-- Python `abs` on the (here exact-rational) ratio values. -/
def pyAbs (q : ℚ) : ℚ := if q < 0 then -q else q

/-- Loop body of the inline `gcd` of `calculate_image_metadata`
(lines 254-257): `while b: a, b = b, a % b`, with explicit fuel so that
the definition is structurally recursive.  The second component strictly
decreases, so `b + 1` steps of fuel always suffice. -/
def pyGcdAux : Nat → Nat → Nat → Nat
  | 0, a, _ => a
  | fuel + 1, a, b => if b = 0 then a else pyGcdAux fuel b (a % b)

/-- The inline `gcd(a, b)` of `calculate_image_metadata`. -/
def pyGcd (a b : Nat) : Nat := pyGcdAux (b + 1) a b

/-- Python `round(q, 2)` scaled by 100: banker's rounding of `100 * q`
to an integer (ties go to the even integer). -/
def roundHalfEven (q : ℚ) : ℤ :=
  let f := ⌊q⌋
  let r := q - f
  if r < 1/2 then f
  else if 1/2 < r then f + 1
  else if f % 2 = 0 then f else f + 1

/-- The `f"{round(ratio,2):.2f}:1"` formatting of a non-standard ratio
(line 287-288), for the positive ratios that reach it. -/
def formatRatio (ratio : ℚ) : String :=
  let n := roundHalfEven (100 * ratio)
  let frac := n % 100
  toString (n / 100) ++ "." ++
    (if frac < 10 then "0" ++ toString frac else toString frac) ++ ":1"

/-- The `cinema_standards` table (lines 269-277), in its Python dict
insertion order; the float keys are modelled by the corresponding
decimal rationals. -/
def cinema_standards : List (ℚ × String) :=
  [(2.39, "2.39:1"), (2.35, "2.35:1"), (1.85, "1.85:1"), (1.78, "16:9"),
   (1.66, "5:3"), (1.33, "4:3"), (1.00, "1:1")]

/-- Python `min(keys, key=lambda x: abs(x - ratio))` together with the
dict lookup of the winner's label: fold over the remaining entries,
replacing the current best only on a strictly smaller distance, so the
earliest minimiser wins, exactly as `min` does. -/
def minBy (ratio : ℚ) : List (ℚ × String) → ℚ × String → ℚ × String
  | [], best => best
  | p :: ps, best =>
    minBy ratio ps (if pyAbs (p.1 - ratio) < pyAbs (best.1 - ratio) then p else best)

/-- `closest_ratio` of line 280 (with its label): the table is
non-empty, so the fold starts from its head. -/
def closestStandard (ratio : ℚ) : ℚ × String :=
  match cinema_standards with
  | [] => (0, "")
  | p :: ps => minBy ratio ps p

/-- The `image_aspect_ratio_fraction` computation (lines 260-263) for
positive dimensions: reduce by the inline gcd and format as `"W:H"`. -/
def image_aspect_ratio_fraction (width height : Int) : String :=
  let divisor := pyGcd width.toNat height.toNat
  toString (width.toNat / divisor) ++ ":" ++ toString (height.toNat / divisor)

/-- The `image_aspect_ratio_cinema` computation (lines 265-288) on the
real-valued ratio `width / height`: nearest standard by absolute
difference, its label if within 5 percent relative difference, otherwise
the two-decimal formatting. -/
def image_aspect_ratio_cinema (ratio : ℚ) : String :=
  let closest := closestStandard ratio
  if pyAbs (ratio - closest.1) / closest.1 < 0.05 then closest.2
  else formatRatio ratio

/-- scraper.py `calculate_image_metadata` (lines 248-290).  The Python
function returns a 3-tuple `("", "", "")` from the non-positive guard
(line 251) but a 2-tuple on the main path (line 290); the varying arity
is modelled by a `List String` result. -/
def calculate_image_metadata (width height : Int) : List String :=
  if width ≤ 0 ∨ height ≤ 0 then ["", "", ""]
  else
    [image_aspect_ratio_fraction width height,
     image_aspect_ratio_cinema ((width : ℚ) / (height : ℚ))]

/-! ### Helper lemmas for the classifier -/

theorem pyAbs_eq_abs (q : ℚ) : pyAbs q = |q| := by
  unfold pyAbs
  split
  · exact (abs_of_neg (by assumption)).symm
  · exact (abs_of_nonneg (by linarith [not_lt.mp (by assumption : ¬ q < 0)])).symm

theorem pyGcdAux_eq_gcd : ∀ (fuel a b : Nat), b < fuel →
    pyGcdAux fuel a b = Nat.gcd a b := by
  intro fuel
  induction fuel with
  | zero => intro a b h; omega
  | succ n ih =>
    intro a b h
    unfold pyGcdAux
    by_cases hb : b = 0
    · simp [hb]
    · simp only [hb, if_false]
      rw [ih b (a % b) (Nat.lt_of_lt_of_le (Nat.mod_lt a (Nat.pos_of_ne_zero hb))
        (Nat.le_of_lt_succ h))]
      rw [Nat.gcd_comm b (a % b), ← Nat.gcd_rec b a, Nat.gcd_comm b a]

theorem pyGcd_eq_gcd (a b : Nat) : pyGcd a b = Nat.gcd a b :=
  pyGcdAux_eq_gcd (b + 1) a b (Nat.lt_succ_self b)

theorem minBy_mem (r : ℚ) : ∀ (l : List (ℚ × String)) (best : ℚ × String),
    minBy r l best = best ∨ minBy r l best ∈ l := by
  intro l
  induction l with
  | nil => intro best; left; rfl
  | cons p ps ih =>
    intro best
    unfold minBy
    rcases ih (if pyAbs (p.1 - r) < pyAbs (best.1 - r) then p else best) with h | h
    · rw [h]
      split
      · right; exact List.mem_cons_self p ps
      · left; rfl
    · right; exact List.mem_cons_of_mem p h

theorem minBy_le (r : ℚ) : ∀ (l : List (ℚ × String)) (best : ℚ × String),
    pyAbs ((minBy r l best).1 - r) ≤ pyAbs (best.1 - r) ∧
    ∀ p ∈ l, pyAbs ((minBy r l best).1 - r) ≤ pyAbs (p.1 - r) := by
  intro l
  induction l with
  | nil => intro best; exact ⟨le_refl _, by intro p hp; cases hp⟩
  | cons p ps ih =>
    intro best
    unfold minBy
    obtain ⟨h1, h2⟩ := ih (if pyAbs (p.1 - r) < pyAbs (best.1 - r) then p else best)
    constructor
    · refine le_trans h1 ?_
      split
      · exact le_of_lt (by assumption)
      · exact le_refl _
    · intro q hq
      rcases List.mem_cons.mp hq with hq | hq
      · subst hq
        refine le_trans h1 ?_
        split
        · exact le_refl _
        · exact not_lt.mp (by assumption)
      · exact h2 q hq

/-! ## Image fetcher (`save_image`, lines 292-329)

The HTTP session and the PIL decoder are collaborators, modelled by a
`FetchEnv`: `get url = none` stands for any exception raised while
downloading or writing the file (`session.get`, `raise_for_status`,
`open`/`write`), caught by the outer handler of line 328; `decode
content = none` stands for `ImportError` (missing PIL) or any exception
while decoding, caught by the handlers of lines 321 and 324. -/

/-- Deterministic stand-in for the network session plus image decoder. -/
structure FetchEnv where
  get : String → Option String
  decode : String → Option (Int × Int)

/-- Index of the last character of `cs` satisfying `p`, if any. -/
def rfindIdx (p : Char → Bool) (cs : List Char) : Option Nat :=
  ((cs.enum.filter (fun ic => p ic.2)).map (fun ic => ic.1)).getLast?

/-- Python `str.split(sep)` for a one-character separator: the result is
never empty, and an empty input gives `[[]]`. -/
def splitOnChar (sep : Char) : List Char → List (List Char)
  | [] => [[]]
  | c :: rest =>
    match splitOnChar sep rest with
    | [] => if c = sep then [[], []] else [[c]]
    | g :: gs => if c = sep then [] :: g :: gs else (c :: g) :: gs

/-- Python `os.path.splitext(path)[1]` for `/`-separated paths: the
extension starts at the last `.` of the final path component, provided
some earlier character of that component is not a `.` (so dotfiles such
as `.bashrc` have no extension). -/
def pySplitextExt (path : String) : String :=
  let base := (splitOnChar '/' path.toList).getLastD []
  match rfindIdx (fun c => c = '.') base with
  | none => ""
  | some i =>
    if (base.take i).any (fun c => c != '.') then String.mk (base.drop i) else ""

/-- The `out_path` computation of lines 296-299: extension from the URL
up to the first `?`, lowercased, defaulted and restricted to the
allow-list, joined to `out_dir / f"{shot_id}{ext}"`. -/
def save_image_path (url out_dir shot_id fallback_ext : String) : String :=
  let ext0 := pyLower (pySplitextExt
    (String.mk ((splitOnChar '?' url.toList).headD [])))
  let ext1 := if ext0 = "" then fallback_ext else ext0
  let ext := if ext1 ∈ [".jpg", ".jpeg", ".png", ".webp"] then ext1 else fallback_ext
  out_dir ++ "/" ++ shot_id ++ ext

/-- scraper.py `save_image` (lines 292-329).  Returns the 5-tuple
`(image_path, image_width, image_height, image_aspect_ratio_fraction,
image_aspect_ratio_cinema)`.  The 2-value unpacking of
`calculate_image_metadata`'s result at line 317 raises `ValueError`
when that call returns its 3-tuple, which the handler of line 324
turns into `(out_path, "", "", "", "")`; this is the wildcard match
below. -/
def save_image (env : FetchEnv) (url : String) (out_dir : String)
    (shot_id : String) (fallback_ext : String := ".jpg") :
    String × String × String × String × String :=
  if url = "" then ("", "", "", "", "")
  else
    let out_path := save_image_path url out_dir shot_id fallback_ext
    match env.get url with
    | none => ("", "", "", "", "")
    | some content =>
      match env.decode content with
      | none => (out_path, "", "", "", "")
      | some (w, h) =>
        match calculate_image_metadata w h with
        | [frac, cinema] => (out_path, toString w, toString h, frac, cinema)
        | _ => (out_path, "", "", "", "")

/-! ## Tile scanner (`parse_tile_basic`, lines 223-243)

A rendered tile is modelled by the attributes and sub-elements the
function reads.  `Option String` on an attribute is selenium's
`get_attribute`, which yields `None` for a missing attribute.  The
outer `Option` on `img_still` / `gallerythumb` is the presence of the
sub-element: `find_element` raises when it is absent, which the
enclosing `try`/`except` turns into `""`. -/

/-- The parts of a gallery tile that `parse_tile_basic` inspects. -/
structure TileDom where
  data_shotid : Option String
  data_titleyear : Option String
  data_shot_status : Option String
  data_title_content_status : Option String
  /-- Raw text of `.moviedetails.topdetails .gallerytitle`, when the
  element exists. -/
  gallerytitle : Option String
  /-- `a.gallerythumb img.still`: `none` when the element is missing,
  otherwise its `src` attribute (itself `none` when absent). -/
  img_still : Option (Option String)
  /-- `a.gallerythumb` looked up for `data-filename`: `none` when the
  element is missing, otherwise its `data-filename` attribute. -/
  gallerythumb : Option (Option String)
deriving Repr, DecidableEq

/-- The dict built by `parse_tile_basic`.  `thumb_src` and
`data_filename` keep `Option String` because the Python code stores the
raw `get_attribute` result there, which is `None` when the sub-element
exists but lacks the attribute. -/
structure TileBasic where
  shot_id : String
  titleyear : String
  shot_status : String
  title_content_status : String
  grid_title_raw : String
  thumb_src : Option String
  data_filename : Option String
deriving Repr, DecidableEq

/-- scraper.py `parse_tile_basic`. -/
def parse_tile_basic (t : TileDom) : TileBasic :=
  { shot_id := pyOrEmpty t.data_shotid
  , titleyear := pyOrEmpty t.data_titleyear
  , shot_status := pyOrEmpty t.data_shot_status
  , title_content_status := pyOrEmpty t.data_title_content_status
  , grid_title_raw :=
      match t.gallerytitle with
      | some txt => get_text txt
      | none => ""
  , thumb_src :=
      match t.img_still with
      | some attr => attr
      | none => some ""
  , data_filename :=
      match t.gallerythumb with
      | some attr => attr
      | none => some "" }

/-! ## Detail-panel extractor (`parse_modal`, lines 173-221) -/

/-- One `#shot_details .detail-group`, as `parse_modal` inspects it:
the `.detail-type` label text (`none` when `find_element` raises), the
presence of the `.details` div, the raw texts of its
`span.full_location, span.full_filming_location` matches in DOM order,
the raw texts of its `<a>` elements, and the raw flattened text of the
whole `.details` div. -/
structure DetailGroup where
  detailType : Option String
  hasDetails : Bool
  spanTexts : List String
  anchorTexts : List String
  flatText : String
deriving Repr, DecidableEq

/-- The value computed for one detail group (lines 195-206): `full` is
the collapsed text of the first full-location span when one exists;
Python's `if full:` is falsy both for `None` and for the empty string,
and only a truthy `full` short-circuits the anchor/flat-text fallback. -/
def groupValue (spanTexts anchorTexts : List String) (flatText : String) : String :=
  let full : Option String :=
    match spanTexts with
    | [] => none
    | s :: _ => some (get_text s)
  match full with
  | some f =>
    if f ≠ "" then f
    else if anchorTexts ≠ [] then
      String.intercalate ", " (anchorTexts.map get_text)
    else get_text flatText
  | none =>
    if anchorTexts ≠ [] then
      String.intercalate ", " (anchorTexts.map get_text)
    else get_text flatText

/-- The per-group step of the loop at lines 191-209: `find_element`
failing on `.detail-type` or `.details` raises, and the
`except ... continue` skips the group; otherwise the normalized label is
paired with `groupValue`. -/
def parseGroup (g : DetailGroup) : Option (String × String) :=
  match g.detailType, g.hasDetails with
  | some label, true =>
    some (normalize_field_name label, groupValue g.spanTexts g.anchorTexts g.flatText)
  | _, _ => none

/-- The modal as `parse_modal` reads it.  `swatchColors` abstracts the
regex extraction of each swatch's `background-color` style value;
`heroHref` / `heroSrc` are the `#hero a` link target and the
`#shot_details_hero` image source (`none` when the element is
missing). -/
structure ModalDom where
  title : Option String
  swatchColors : List String
  groups : List DetailGroup
  heroHref : Option String
  heroSrc : Option String
deriving Repr, DecidableEq

/-- The dict returned by `parse_modal`: fixed fields plus the labelled
detail groups in order.  Duplicate labels behave like repeated dict
assignment (the later entry wins on lookup); no claim depends on that
resolution, so the association list keeps all entries. -/
structure ModalData where
  title_year_raw : String
  palette_hex : String
  fields : List (String × String)
  image_url : String
deriving Repr, DecidableEq

/-- scraper.py `parse_modal` over a rendered modal. -/
def parse_modal (m : ModalDom) : ModalData :=
  { title_year_raw :=
      match m.title with
      | some t => get_text t
      | none => ""
  , palette_hex := String.intercalate "," m.swatchColors
  , fields := m.groups.filterMap parseGroup
  , image_url :=
      match m.heroHref with
      | some u => u
      | none =>
        match m.heroSrc with
        | some u => u
        | none => "" }

/-! ## Rows and `save_progress` (lines 435-463) -/

/-- One scraped record (lines 377-386): the tile dict merged with the
modal dict plus the five image columns.  The Python record is a dict
union; the structure keeps both halves (their key sets are disjoint for
the fields the scraper produces). -/
structure Row where
  basic : TileBasic
  details : ModalData
  image_path : String
  image_width : String
  image_height : String
  image_aspect_ratio_fraction : String
  image_aspect_ratio_cinema : String
deriving Repr, DecidableEq

/-- `record.keys()` for the `all_fields.update(record.keys())` of
line 388. -/
def Row.keys (r : Row) : List String :=
  ["shot_id", "titleyear", "shot_status", "title_content_status",
   "grid_title_raw", "thumb_src", "data_filename",
   "title_year_raw", "palette_hex"]
  ++ r.details.fields.map (fun f => f.1)
  ++ ["image_url", "image_path", "image_width", "image_height",
      "image_aspect_ratio_fraction", "image_aspect_ratio_cinema"]

/-- Insertion into a sorted list, for `pySorted`. -/
def insertSorted (x : String) : List String → List String
  | [] => [x]
  | y :: ys => if x ≤ y then x :: y :: ys else y :: insertSorted x ys

/-- Python `sorted` on field names (insertion sort; only the resulting
order matters to the callers). -/
def pySorted (l : List String) : List String := l.foldr insertSorted []

/-- The fixed column prefix of `save_progress` (lines 441-443). -/
def fixed_cols : List String :=
  ["shot_id", "grid_title_raw", "titleyear", "title_year_raw",
   "shot_status", "title_content_status",
   "thumb_src", "data_filename", "image_url", "image_path"]

/-- The appended new columns of `save_progress` (line 446). -/
def new_cols : List String :=
  ["image_width", "image_height", "image_aspect_ratio_fraction",
   "image_aspect_ratio_cinema"]

/-- The spreadsheet file that `df.to_excel(filename)` produces, as far
as the claims inspect it: its path, its column order, and the rows it
contains.  The cell-level details (missing fields filled with `""`,
whitespace normalisation of every value) are carried by the rows
unchanged here; no claim under proof depends on them. -/
structure SavedFile where
  filename : String
  cols : List String
  rows : List Row
deriving Repr, DecidableEq

/-- scraper.py `save_progress`: `if not rows: return` writes nothing at
all (the result is `none` and the target path is untouched); otherwise
the fixed prefix, the new columns and the sorted remaining dynamic
fields give the column order and the file is (over)written. -/
def save_progress (rows : List Row) (all_fields : List String)
    (filename : String) : Option SavedFile :=
  match rows with
  | [] => none
  | _ =>
    let cols := fixed_cols ++ new_cols
    let dynamic := pySorted (all_fields.filter (fun c => !(cols.contains c)))
    some { filename := filename, cols := cols ++ dynamic, rows := rows }

/-! ## Incremental scrape engine (`incremental_scrape`, lines 331-433)

The browser session is a deterministic environment: `tiles k` is what
`driver.find_elements` returns in the k-th loop cycle, `heights k` the
`document.body.scrollHeight` observed after the scroll of cycle k, and
`processTile` the combined `open_shot_modal` / `parse_modal` /
`close_modal` interaction (`none` = an exception anywhere in that
sequence, handled by the per-tile `except ... continue` of line 402).
`save_image` never raises, and in this deterministic model neither do
`find_elements` and `execute_script`, so the outer `except ... break`
of line 429 is never taken.

The periodic-save site of line 398 references `base_output_dir`, a name
that is local to `main` and neither global nor a parameter of
`incremental_scrape`; evaluating it raises `NameError` before
`save_progress` is called, and the per-tile handler swallows the error.
The ghost fields `saveAttempts` (how often the `processed_count %
batch_size == 0` site fired) and `progressWrites` (the intermediate
files actually written — never appended, because the call never
executes) record this. -/

/-- Deterministic stand-in for the selenium driver during the loop. -/
structure ScrapeEnv where
  tiles : Nat → List TileDom
  heights : Nat → Nat
  initialHeight : Nat
  processTile : TileDom → Option ModalData
  fetch : FetchEnv

/-- The arguments of `incremental_scrape` that the loop consults. -/
structure ScrapeParams where
  max_shots : Nat
  batch_size : Nat
  img_dir : String

/-- The mutable state of the loop, plus ghost trace fields:
`processedIds` is the chronological list of identifiers that were fully
processed, `progressWrites` and `saveAttempts` describe the periodic
checkpoint site. -/
structure EngineState where
  rows : List Row
  allFields : List String
  seen : List String
  count : Nat
  noNew : Nat
  lastHeight : Nat
  cycleIdx : Nat
  processedIds : List String
  progressWrites : List (List Row)
  saveAttempts : Nat
deriving Repr

/-- Python `set.update`: add the keys not yet present. -/
def listUnion (acc : List String) (ks : List String) : List String :=
  ks.foldl (fun a k => if k ∈ a then a else a ++ [k]) acc

/-- The body of `for tile in tiles` (lines 352-404) for one tile:
skip when the identifier is falsy or already seen (line 361); an
exception while opening/extracting/closing skips the tile (line 402);
otherwise download the image, append the assembled record, mark the
identifier as processed, and fire the (always failing) periodic save
when the new count is a multiple of the batch size. -/
def processOne (env : ScrapeEnv) (ps : ScrapeParams) (t : TileDom)
    (s : EngineState) (newN : Nat) : EngineState × Nat :=
  let basic := parse_tile_basic t
  let sid := basic.shot_id
  if sid = "" ∨ sid ∈ s.seen then (s, newN)
  else
    match env.processTile t with
    | none => (s, newN)
    | some details =>
      let img := save_image env.fetch details.image_url ps.img_dir sid
      let record : Row :=
        { basic := basic, details := details,
          image_path := img.1, image_width := img.2.1, image_height := img.2.2.1,
          image_aspect_ratio_fraction := img.2.2.2.1,
          image_aspect_ratio_cinema := img.2.2.2.2 }
      let count1 := s.count + 1
      ({ s with
          rows := s.rows ++ [record],
          allFields := listUnion s.allFields record.keys,
          seen := s.seen ++ [sid],
          count := count1,
          processedIds := s.processedIds ++ [sid],
          saveAttempts :=
            if count1 % ps.batch_size = 0 then s.saveAttempts + 1
            else s.saveAttempts },
       newN + 1)

/-- The whole `for tile in tiles` loop, with the `break` of line 353
once `processed_count` reaches `max_shots`; the `Nat` component is
`new_tiles_processed`. -/
def processTiles (env : ScrapeEnv) (ps : ScrapeParams) :
    List TileDom → EngineState → Nat → EngineState × Nat
  | [], s, n => (s, n)
  | t :: ts, s, n =>
    if ps.max_shots ≤ s.count then (s, n)
    else
      let sn := processOne env ps t s n
      processTiles env ps ts sn.1 sn.2

/-- Whether a cycle ended the `while` loop (`brk`) or scrolled on
(`cont`). -/
inductive CycleResult where
  | brk (s : EngineState)
  | cont (s : EngineState)

/-- The state carried by either outcome. -/
def CycleResult.state : CycleResult → EngineState
  | .brk s => s
  | .cont s => s

/-- One iteration of the `while processed_count < max_shots` loop
(lines 343-427): enumerate tiles, process them, update
`consecutive_no_new` (threshold 3, line 339), stop on the threshold or
the target count (line 414), otherwise scroll and stop when the page
height did not change (line 424). -/
def runCycle (env : ScrapeEnv) (ps : ScrapeParams) (s : EngineState) : CycleResult :=
  let tiles := env.tiles s.cycleIdx
  let sn := processTiles env ps tiles s 0
  let s1 := sn.1
  let s2 := if sn.2 = 0 then { s1 with noNew := s1.noNew + 1 }
            else { s1 with noNew := 0 }
  if 3 ≤ s2.noNew ∨ ps.max_shots ≤ s2.count then .brk s2
  else
    let newHeight := env.heights s.cycleIdx
    if newHeight = s2.lastHeight then .brk s2
    else .cont { s2 with lastHeight := newHeight, cycleIdx := s2.cycleIdx + 1 }

/-- The `while` loop with explicit fuel: `none` means the fuel ran out
before the loop ended, `some s` is the state in which the loop
terminated.  The guard `processed_count < max_shots` is tested before
fuel is consumed, as in the source. -/
def runLoop (env : ScrapeEnv) (ps : ScrapeParams) :
    Nat → EngineState → Option EngineState
  | 0, s => if s.count < ps.max_shots then none else some s
  | fuel + 1, s =>
    if s.count < ps.max_shots then
      match runCycle env ps s with
      | .brk s1 => some s1
      | .cont s1 => runLoop env ps fuel s1
    else some s

/-- The state at loop entry (lines 334-338): empty accumulators, the
module-level `processed_shots` set empty at the start of the run, and
`last_height` read from the page. -/
def initState (env : ScrapeEnv) : EngineState :=
  { rows := [], allFields := [], seen := [], count := 0, noNew := 0,
    lastHeight := env.initialHeight, cycleIdx := 0, processedIds := [],
    progressWrites := [], saveAttempts := 0 }

/-! ### Engine invariant lemmas -/

/-- The deduplication invariant: the processed-identifier trace has no
duplicates and every processed identifier is in the seen-set. -/
def EngineInv (s : EngineState) : Prop :=
  s.processedIds.Nodup ∧ ∀ x ∈ s.processedIds, x ∈ s.seen

theorem processOne_lastHeight (env : ScrapeEnv) (ps : ScrapeParams)
    (t : TileDom) (s : EngineState) (n : Nat) :
    (processOne env ps t s n).1.lastHeight = s.lastHeight := by
  simp only [processOne]
  split
  · rfl
  · split
    · rfl
    · rfl

theorem processOne_seen_mono (env : ScrapeEnv) (ps : ScrapeParams)
    (t : TileDom) (s : EngineState) (n : Nat) :
    s.seen ⊆ (processOne env ps t s n).1.seen := by
  simp only [processOne]
  split
  · exact fun x hx => hx
  · split
    · exact fun x hx => hx
    · exact List.subset_append_left _ _

theorem processOne_inv (env : ScrapeEnv) (ps : ScrapeParams)
    (t : TileDom) (s : EngineState) (n : Nat) (h : EngineInv s) :
    EngineInv (processOne env ps t s n).1 := by
  simp only [processOne]
  split
  · exact h
  · split
    · exact h
    · have hcond : ¬((parse_tile_basic t).shot_id = "" ∨
          (parse_tile_basic t).shot_id ∈ s.seen) := by assumption
      have hnotin : (parse_tile_basic t).shot_id ∉ s.seen := fun hm => hcond (Or.inr hm)
      have hnotid : (parse_tile_basic t).shot_id ∉ s.processedIds :=
        fun hx => hnotin (h.2 _ hx)
      constructor
      · simp only [List.nodup_append, List.nodup_cons, List.not_mem_nil,
          not_false_iff, List.nodup_nil, and_true, true_and]
        exact ⟨h.1, by simpa [List.disjoint_singleton] using hnotid⟩
      · intro x hx
        rcases List.mem_append.mp hx with hx | hx
        · exact List.mem_append.mpr (Or.inl (h.2 x hx))
        · exact List.mem_append.mpr (Or.inr hx)

theorem processTiles_lastHeight (env : ScrapeEnv) (ps : ScrapeParams) :
    ∀ (ts : List TileDom) (s : EngineState) (n : Nat),
      (processTiles env ps ts s n).1.lastHeight = s.lastHeight := by
  intro ts
  induction ts with
  | nil => intro s n; rfl
  | cons t ts ih =>
    intro s n
    unfold processTiles
    split
    · rfl
    · rw [ih]
      exact processOne_lastHeight env ps t s n

theorem processTiles_seen_mono (env : ScrapeEnv) (ps : ScrapeParams) :
    ∀ (ts : List TileDom) (s : EngineState) (n : Nat),
      s.seen ⊆ (processTiles env ps ts s n).1.seen := by
  intro ts
  induction ts with
  | nil => intro s n; exact fun x hx => hx
  | cons t ts ih =>
    intro s n
    unfold processTiles
    split
    · exact fun x hx => hx
    · exact List.Subset.trans (processOne_seen_mono env ps t s n)
        (ih (processOne env ps t s n).1 (processOne env ps t s n).2)

theorem processTiles_inv (env : ScrapeEnv) (ps : ScrapeParams) :
    ∀ (ts : List TileDom) (s : EngineState) (n : Nat), EngineInv s →
      EngineInv (processTiles env ps ts s n).1 := by
  intro ts
  induction ts with
  | nil => intro s n h; exact h
  | cons t ts ih =>
    intro s n h
    unfold processTiles
    split
    · exact h
    · exact ih _ _ (processOne_inv env ps t s n h)

theorem runCycle_seen_mono (env : ScrapeEnv) (ps : ScrapeParams) (s : EngineState) :
    s.seen ⊆ (runCycle env ps s).state.seen := by
  have hm := processTiles_seen_mono env ps (env.tiles s.cycleIdx) s 0
  simp only [runCycle]
  split_ifs <;> exact hm

theorem runCycle_inv (env : ScrapeEnv) (ps : ScrapeParams) (s : EngineState)
    (h : EngineInv s) : EngineInv (runCycle env ps s).state := by
  have hm := processTiles_inv env ps (env.tiles s.cycleIdx) s 0 h
  simp only [runCycle]
  split_ifs <;> exact hm

theorem runCycle_brk_of_const_height (env : ScrapeEnv) (ps : ScrapeParams)
    (s : EngineState) (hconst : ∀ k, env.heights k = env.initialHeight)
    (hlh : s.lastHeight = env.initialHeight) :
    ∃ s1, runCycle env ps s = .brk s1 := by
  simp only [runCycle]
  set sn := processTiles env ps (env.tiles s.cycleIdx) s 0 with hsn
  set s2 := (if sn.2 = 0 then { sn.1 with noNew := sn.1.noNew + 1 }
    else { sn.1 with noNew := 0 }) with hs2
  have hlast : s2.lastHeight = env.initialHeight := by
    rw [hs2]
    split
    · show sn.1.lastHeight = _
      rw [hsn, processTiles_lastHeight, hlh]
    · show sn.1.lastHeight = _
      rw [hsn, processTiles_lastHeight, hlh]
  by_cases hb : 3 ≤ s2.noNew ∨ ps.max_shots ≤ s2.count
  · rw [if_pos hb]
    exact ⟨_, rfl⟩
  · rw [if_neg hb, if_pos (by rw [hconst, hlast])]
    exact ⟨_, rfl⟩

theorem runLoop_seen_mono (env : ScrapeEnv) (ps : ScrapeParams) :
    ∀ (fuel : Nat) (s r : EngineState), runLoop env ps fuel s = some r →
      s.seen ⊆ r.seen := by
  intro fuel
  induction fuel with
  | zero =>
    intro s r h
    unfold runLoop at h
    split at h
    · exact absurd h (by simp)
    · cases h; exact fun x hx => hx
  | succ n ih =>
    intro s r h
    unfold runLoop at h
    split at h
    · cases hc : runCycle env ps s with
      | brk s1 =>
        rw [hc] at h
        cases h
        have := runCycle_seen_mono env ps s
        rwa [hc] at this
      | cont s1 =>
        rw [hc] at h
        have h2 := runCycle_seen_mono env ps s
        rw [hc] at h2
        exact List.Subset.trans h2 (ih s1 r h)
    · cases h; exact fun x hx => hx

theorem runLoop_inv (env : ScrapeEnv) (ps : ScrapeParams) :
    ∀ (fuel : Nat) (s r : EngineState), runLoop env ps fuel s = some r →
      EngineInv s → EngineInv r := by
  intro fuel
  induction fuel with
  | zero =>
    intro s r h hs
    unfold runLoop at h
    split at h
    · exact absurd h (by simp)
    · cases h; exact hs
  | succ n ih =>
    intro s r h hs
    unfold runLoop at h
    split at h
    · cases hc : runCycle env ps s with
      | brk s1 =>
        rw [hc] at h
        cases h
        have := runCycle_inv env ps s hs
        rwa [hc] at this
      | cont s1 =>
        rw [hc] at h
        have h2 := runCycle_inv env ps s hs
        rw [hc] at h2
        exact ih s1 r h h2
    · cases h; exact hs

theorem runLoop_mono (env : ScrapeEnv) (ps : ScrapeParams) :
    ∀ (fuel fuel' : Nat) (s r : EngineState), runLoop env ps fuel s = some r →
      fuel ≤ fuel' → runLoop env ps fuel' s = some r := by
  intro fuel
  induction fuel with
  | zero =>
    intro fuel' s r h _
    unfold runLoop at h
    split at h
    · exact absurd h (by simp)
    · cases h
      cases fuel' with
      | zero =>
        unfold runLoop
        split
        · omega
        · rfl
      | succ m =>
        unfold runLoop
        split
        · omega
        · rfl
  | succ n ih =>
    intro fuel' s r h hle
    unfold runLoop at h
    split at h
    · cases fuel' with
      | zero => omega
      | succ m =>
        unfold runLoop
        split
        · cases hc : runCycle env ps s with
          | brk s1 => rw [hc] at h; exact h
          | cont s1 =>
            rw [hc] at h
            exact ih m s1 r h (Nat.le_of_succ_le_succ hle)
        · omega
    · cases h
      cases fuel' with
      | zero =>
        unfold runLoop
        split
        · omega
        · rfl
      | succ m =>
        unfold runLoop
        split
        · omega
        · rfl

/-! ### Classifier helper lemmas -/

theorem closestStandard_mem (r : ℚ) : closestStandard r ∈ cinema_standards := by
  unfold closestStandard
  rcases hcs : cinema_standards with _ | ⟨p, ps⟩
  · simp [cinema_standards] at hcs
  · show minBy r ps p ∈ p :: ps
    rcases minBy_mem r ps p with h | h
    · rw [h]
      exact List.mem_cons_self p ps
    · exact List.mem_cons_of_mem p h

theorem closestStandard_le (r : ℚ) :
    ∀ p ∈ cinema_standards, pyAbs ((closestStandard r).1 - r) ≤ pyAbs (p.1 - r) := by
  unfold closestStandard
  rcases hcs : cinema_standards with _ | ⟨q, qs⟩
  · intro p hp
    cases hp
  · intro p hp
    show pyAbs ((minBy r qs q).1 - r) ≤ pyAbs (p.1 - r)
    rcases List.mem_cons.mp hp with hp | hp
    · rw [hp]
      exact (minBy_le r qs q).1
    · exact (minBy_le r qs q).2 p hp

theorem cim_eval_1920_1080 : calculate_image_metadata 1920 1080 = ["16:9", "16:9"] := by
  have hc : closestStandard ((16 : ℚ) / 9) = (1.78, "16:9") := by
    norm_num [closestStandard, cinema_standards, minBy, pyAbs]
  have hfrac : image_aspect_ratio_fraction 1920 1080 = "16:9" := by decide
  have hcin : image_aspect_ratio_cinema ((16 : ℚ) / 9) = "16:9" := by
    unfold image_aspect_ratio_cinema
    rw [hc]
    rw [if_pos (by norm_num [pyAbs])]
  unfold calculate_image_metadata
  rw [if_neg (by omega)]
  norm_num [hfrac, hcin]

theorem cim_eval_1000_1000 : calculate_image_metadata 1000 1000 = ["1:1", "1:1"] := by
  have hc : closestStandard ((1 : ℚ)) = (1.00, "1:1") := by
    norm_num [closestStandard, cinema_standards, minBy, pyAbs]
  have hfrac : image_aspect_ratio_fraction 1000 1000 = "1:1" := by decide
  have hcin : image_aspect_ratio_cinema ((1 : ℚ)) = "1:1" := by
    unfold image_aspect_ratio_cinema
    rw [hc]
    rw [if_pos (by norm_num [pyAbs])]
  unfold calculate_image_metadata
  rw [if_neg (by omega)]
  norm_num [hfrac, hcin]

/-! ## Claim theorems -/

/-- C4 (code bug): on a non-positive dimension `calculate_image_metadata`
does not return the pair `("", "")` the specification describes — it
returns the 3-tuple `("", "", "")` (line 251), an arity its only caller
cannot unpack.  Both quoted instances evaluate to the triple, which is
not the pair. -/
theorem c4_nonpositive_returns_triple :
    calculate_image_metadata 0 100 = ["", "", ""] ∧
    calculate_image_metadata 100 0 = ["", "", ""] ∧
    (["", "", ""] : List String) ≠ ["", ""] := by
  refine ⟨rfl, rfl, by decide⟩

/-- C5: for positive integer dimensions the first component of
`calculate_image_metadata` is a string `"a:b"` with `a, b` positive,
`gcd a b = 1` and `a * h = b * w`, i.e. `a / b` equals `w / h`
exactly. -/
theorem c5_fraction_reduced (w h : Int) (hw : 0 < w) (hh : 0 < h) :
    ∃ a b : Nat, 0 < a ∧ 0 < b ∧ Nat.gcd a b = 1 ∧
      (a : Int) * h = (b : Int) * w ∧
      (calculate_image_metadata w h).head? =
        some (toString a ++ ":" ++ toString b) := by
  have hwn : 0 < w.toNat := by omega
  have hhn : 0 < h.toNat := by omega
  have hd : 0 < Nat.gcd w.toNat h.toNat :=
    Nat.gcd_pos_of_pos_left _ hwn
  refine ⟨w.toNat / Nat.gcd w.toNat h.toNat, h.toNat / Nat.gcd w.toNat h.toNat,
    Nat.div_pos (Nat.le_of_dvd hwn (Nat.gcd_dvd_left _ _)) hd,
    Nat.div_pos (Nat.le_of_dvd hhn (Nat.gcd_dvd_right _ _)) hd,
    Nat.coprime_div_gcd_div_gcd hd, ?_, ?_⟩
  · have h1 : w.toNat / Nat.gcd w.toNat h.toNat * Nat.gcd w.toNat h.toNat = w.toNat :=
      Nat.div_mul_cancel (Nat.gcd_dvd_left _ _)
    have h2 : h.toNat / Nat.gcd w.toNat h.toNat * Nat.gcd w.toNat h.toNat = h.toNat :=
      Nat.div_mul_cancel (Nat.gcd_dvd_right _ _)
    have key : w.toNat / Nat.gcd w.toNat h.toNat * h.toNat =
        h.toNat / Nat.gcd w.toNat h.toNat * w.toNat := by
      calc w.toNat / Nat.gcd w.toNat h.toNat * h.toNat
          = w.toNat / Nat.gcd w.toNat h.toNat *
            (h.toNat / Nat.gcd w.toNat h.toNat * Nat.gcd w.toNat h.toNat) := by rw [h2]
        _ = h.toNat / Nat.gcd w.toNat h.toNat *
            (w.toNat / Nat.gcd w.toNat h.toNat * Nat.gcd w.toNat h.toNat) := by ring
        _ = h.toNat / Nat.gcd w.toNat h.toNat * w.toNat := by rw [h1]
    rw [← Int.toNat_of_nonneg hw.le, ← Int.toNat_of_nonneg hh.le]
    exact_mod_cast key
  · have hif : calculate_image_metadata w h =
        [image_aspect_ratio_fraction w h,
         image_aspect_ratio_cinema ((w : ℚ) / (h : ℚ))] := by
      unfold calculate_image_metadata
      rw [if_neg (by omega)]
    rw [hif]
    have hfrac : image_aspect_ratio_fraction w h =
        toString (w.toNat / Nat.gcd w.toNat h.toNat) ++ ":" ++
        toString (h.toNat / Nat.gcd w.toNat h.toNat) := by
      unfold image_aspect_ratio_fraction
      rw [pyGcd_eq_gcd]
    rw [List.head?_cons, hfrac]

/-- C5 witness: the theorem instantiated at the 1920 x 1080 example. -/
theorem c5_fraction_reduced_witness :
    ∃ a b : Nat, 0 < a ∧ 0 < b ∧ Nat.gcd a b = 1 ∧
      (a : Int) * 1080 = (b : Int) * 1920 ∧
      (calculate_image_metadata 1920 1080).head? =
        some (toString a ++ ":" ++ toString b) :=
  c5_fraction_reduced 1920 1080 (by decide) (by decide)

/-- C6: for positive dimensions the cinema-label component is obtained
by choosing the standard nearest to `w / h` by absolute difference from
the fixed table, using its display label when the relative difference is
below 5 percent and the two-decimal `"X.XX:1"` formatting otherwise;
`(1920, 1080)` yields fraction `"16:9"` and label `"16:9"`, and
`(1000, 1000)` yields `("1:1", "1:1")`. -/
theorem c6_cinema_label (w h : Int) (hw : 0 < w) (hh : 0 < h) :
    closestStandard ((w : ℚ) / (h : ℚ)) ∈ cinema_standards ∧
    (∀ p ∈ cinema_standards,
      |(closestStandard ((w : ℚ) / (h : ℚ))).1 - (w : ℚ) / (h : ℚ)| ≤
        |p.1 - (w : ℚ) / (h : ℚ)|) ∧
    (calculate_image_metadata w h).getLast? =
      some (if pyAbs ((w : ℚ) / (h : ℚ) - (closestStandard ((w : ℚ) / (h : ℚ))).1) /
              (closestStandard ((w : ℚ) / (h : ℚ))).1 < 0.05
            then (closestStandard ((w : ℚ) / (h : ℚ))).2
            else formatRatio ((w : ℚ) / (h : ℚ))) ∧
    calculate_image_metadata 1920 1080 = ["16:9", "16:9"] ∧
    calculate_image_metadata 1000 1000 = ["1:1", "1:1"] := by
  refine ⟨closestStandard_mem _, ?_, ?_, cim_eval_1920_1080, cim_eval_1000_1000⟩
  · intro p hp
    have := closestStandard_le ((w : ℚ) / (h : ℚ)) p hp
    rwa [pyAbs_eq_abs, pyAbs_eq_abs] at this
  · have hif : calculate_image_metadata w h =
        [image_aspect_ratio_fraction w h,
         image_aspect_ratio_cinema ((w : ℚ) / (h : ℚ))] := by
      unfold calculate_image_metadata
      rw [if_neg (by omega)]
    rw [hif]
    rfl

/-- C6 witness: the theorem instantiated at 1920 x 1080, recovering the
two quoted instances. -/
theorem c6_cinema_label_witness :
    calculate_image_metadata 1920 1080 = ["16:9", "16:9"] ∧
    calculate_image_metadata 1000 1000 = ["1:1", "1:1"] :=
  ⟨(c6_cinema_label 1920 1080 (by decide) (by decide)).2.2.2.1,
   (c6_cinema_label 1920 1080 (by decide) (by decide)).2.2.2.2⟩

/-! ### Concrete fetch environments and tiles for the fetcher and
scanner claims -/

/-- A fetch environment whose download succeeds but whose image decode
fails (corrupt image, or PIL missing). -/
def fetchFailDecode : FetchEnv :=
  { get := fun _ => some "bytes", decode := fun _ => none }

/-- A fetch environment whose download always fails. -/
def fetchFailNet : FetchEnv :=
  { get := fun _ => none, decode := fun _ => none }

/-- C7 counterexample: when the download succeeds and decoding fails,
`save_image` returns the written path with four empty strings
(line 326), not the all-empty five-tuple the claim states for every
failure. -/
theorem c7_decode_failure_counterexample :
    save_image fetchFailDecode "http://example.com/a.jpg" "imgs" "s1" =
      ("imgs/s1.jpg", "", "", "", "") ∧
    save_image fetchFailDecode "http://example.com/a.jpg" "imgs" "s1" ≠
      ("", "", "", "", "") := by
  refine ⟨rfl, by decide⟩

/-- C7 (amended): an empty URL yields the all-empty five-tuple, and so
does any failure during the download; a failure during image decoding
instead yields the output path with four empty strings.  `save_image`
is a total function of its environment, so no failure propagates to the
caller. -/
theorem c7_save_image_failures (env : FetchEnv) (url out_dir shot_id : String) :
    (url = "" → save_image env url out_dir shot_id = ("", "", "", "", "")) ∧
    (env.get url = none → save_image env url out_dir shot_id = ("", "", "", "", "")) ∧
    (∀ content, url ≠ "" → env.get url = some content → env.decode content = none →
      save_image env url out_dir shot_id =
        (save_image_path url out_dir shot_id ".jpg", "", "", "", "")) := by
  refine ⟨?_, ?_, ?_⟩
  · intro h
    simp [save_image, h]
  · intro h
    unfold save_image
    split
    · rfl
    · simp [h]
  · intro content hne hget hdec
    unfold save_image
    rw [if_neg hne]
    simp [hget, hdec]

/-- C7 witness: the empty-URL case and a failing download, evaluated at
concrete inputs. -/
theorem c7_save_image_failures_witness :
    save_image fetchFailNet "" "imgs" "s1" = ("", "", "", "", "") ∧
    save_image fetchFailNet "http://x/a.png" "imgs" "s1" = ("", "", "", "", "") :=
  ⟨(c7_save_image_failures fetchFailNet "" "imgs" "s1").1 rfl,
   (c7_save_image_failures fetchFailNet "http://x/a.png" "imgs" "s1").2.1 rfl⟩

/-- C8 counterexample: a group whose full-location span collapses to the
empty string and which also contains a link records the joined link
text — Python's `if full:` is falsy on `""` — so the span's value is not
always the one recorded when a span is present. -/
theorem c8_empty_span_counterexample :
    groupValue ["  "] ["Paris"] "flat" = "Paris" ∧
    groupValue ["  "] ["Paris"] "flat" ≠ get_text "  " := by
  refine ⟨rfl, by decide⟩

/-- C8 (amended): the recorded per-group value follows the precedence
with the span clause restricted to a non-empty collapsed text: (a) the
first full-location span's collapsed text when it is non-empty, else
(b) the comma-joined collapsed link texts when any links exist, else
(c) the collapsed text of the whole group; and every group kept by the
`parse_modal` loop records exactly this value. -/
theorem c8_group_value_precedence :
    (∀ (s1 : String) (rest anchors : List String) (flat : String),
      get_text s1 ≠ "" → groupValue (s1 :: rest) anchors flat = get_text s1) ∧
    (∀ (s1 : String) (rest anchors : List String) (flat : String),
      get_text s1 = "" → anchors ≠ [] →
        groupValue (s1 :: rest) anchors flat =
          String.intercalate ", " (anchors.map get_text)) ∧
    (∀ (s1 : String) (rest : List String) (flat : String),
      get_text s1 = "" → groupValue (s1 :: rest) [] flat = get_text flat) ∧
    (∀ (anchors : List String) (flat : String), anchors ≠ [] →
      groupValue [] anchors flat = String.intercalate ", " (anchors.map get_text)) ∧
    (∀ flat : String, groupValue [] [] flat = get_text flat) ∧
    (∀ (g : DetailGroup) (label v : String), parseGroup g = some (label, v) →
      v = groupValue g.spanTexts g.anchorTexts g.flatText) := by
  refine ⟨?_, ?_, ?_, ?_, ?_, ?_⟩
  · intro s1 rest anchors flat h
    simp [groupValue, h]
  · intro s1 rest anchors flat h ha
    simp [groupValue, h, ha]
  · intro s1 rest flat h
    simp [groupValue, h]
  · intro anchors flat ha
    simp [groupValue, ha]
  · intro flat
    simp [groupValue]
  · intro g label v h
    unfold parseGroup at h
    rcases hdt : g.detailType with _ | l
    · rw [hdt] at h
      cases h
    · rw [hdt] at h
      rcases hhd : g.hasDetails
      · rw [hhd] at h
        cases h
      · rw [hhd] at h
        cases h
        rfl

/-- C8 witness: a non-empty span wins over a present link, and links are
joined when no span exists. -/
theorem c8_group_value_precedence_witness :
    groupValue ["Paris, France "] ["Paris"] "flat" = get_text "Paris, France " ∧
    groupValue [] ["A", "B"] "flat" =
      String.intercalate ", " (["A", "B"].map get_text) :=
  ⟨c8_group_value_precedence.1 "Paris, France " [] ["Paris"] "flat" (by decide),
   c8_group_value_precedence.2.2.2.1 ["A", "B"] "flat" (by decide)⟩

/-- A tile whose `a.gallerythumb` element exists but carries no
`data-filename` attribute. -/
def tileMissingAttr : TileDom :=
  { data_shotid := some "12345", data_titleyear := some "Film (2020)",
    data_shot_status := some "hd", data_title_content_status := some "ok",
    gallerytitle := some "Film", img_still := some (some "https://x/t.jpg"),
    gallerythumb := some none }

/-- C9 counterexample: when the `a.gallerythumb` element exists but the
`data-filename` attribute is absent, `parse_tile_basic` records
selenium's `None` (not the empty string), so the claim that every field
fails soft to `""` on a missing attribute does not hold. -/
theorem c9_missing_attribute_counterexample :
    (parse_tile_basic tileMissingAttr).data_filename = none ∧
    (parse_tile_basic tileMissingAttr).data_filename ≠ some "" := by
  refine ⟨rfl, by decide⟩

/-- C9 (amended): `parse_tile_basic` reads its seven fields
independently — each output field is a function of its own attribute or
sub-element only — and never raises (it is total).  The four attribute
fields and the grid title fail soft to `""` when their attribute or
sub-element is missing, and `thumb_src` / `data_filename` fail soft to
`""` when their sub-element is missing, but record the raw attribute
value — `None`, not `""` — when the element exists without the
attribute. -/
theorem c9_tile_fields_independent :
    (∀ t1 t2 : TileDom, t1.data_shotid = t2.data_shotid →
      (parse_tile_basic t1).shot_id = (parse_tile_basic t2).shot_id) ∧
    (∀ t1 t2 : TileDom, t1.data_titleyear = t2.data_titleyear →
      (parse_tile_basic t1).titleyear = (parse_tile_basic t2).titleyear) ∧
    (∀ t1 t2 : TileDom, t1.data_shot_status = t2.data_shot_status →
      (parse_tile_basic t1).shot_status = (parse_tile_basic t2).shot_status) ∧
    (∀ t1 t2 : TileDom, t1.data_title_content_status = t2.data_title_content_status →
      (parse_tile_basic t1).title_content_status =
        (parse_tile_basic t2).title_content_status) ∧
    (∀ t1 t2 : TileDom, t1.gallerytitle = t2.gallerytitle →
      (parse_tile_basic t1).grid_title_raw = (parse_tile_basic t2).grid_title_raw) ∧
    (∀ t1 t2 : TileDom, t1.img_still = t2.img_still →
      (parse_tile_basic t1).thumb_src = (parse_tile_basic t2).thumb_src) ∧
    (∀ t1 t2 : TileDom, t1.gallerythumb = t2.gallerythumb →
      (parse_tile_basic t1).data_filename = (parse_tile_basic t2).data_filename) ∧
    (∀ t : TileDom, t.data_shotid = none → (parse_tile_basic t).shot_id = "") ∧
    (∀ t : TileDom, t.data_titleyear = none → (parse_tile_basic t).titleyear = "") ∧
    (∀ t : TileDom, t.data_shot_status = none → (parse_tile_basic t).shot_status = "") ∧
    (∀ t : TileDom, t.data_title_content_status = none →
      (parse_tile_basic t).title_content_status = "") ∧
    (∀ t : TileDom, t.gallerytitle = none → (parse_tile_basic t).grid_title_raw = "") ∧
    (∀ t : TileDom, t.img_still = none → (parse_tile_basic t).thumb_src = some "") ∧
    (∀ t : TileDom, t.gallerythumb = none →
      (parse_tile_basic t).data_filename = some "") := by
  refine ⟨?_, ?_, ?_, ?_, ?_, ?_, ?_, ?_, ?_, ?_, ?_, ?_, ?_, ?_⟩
  · intro t1 t2 h; simp [parse_tile_basic, h]
  · intro t1 t2 h; simp [parse_tile_basic, h]
  · intro t1 t2 h; simp [parse_tile_basic, h]
  · intro t1 t2 h; simp [parse_tile_basic, h]
  · intro t1 t2 h; simp [parse_tile_basic, h]
  · intro t1 t2 h; simp [parse_tile_basic, h]
  · intro t1 t2 h; simp [parse_tile_basic, h]
  · intro t h; simp [parse_tile_basic, pyOrEmpty, h]
  · intro t h; simp [parse_tile_basic, pyOrEmpty, h]
  · intro t h; simp [parse_tile_basic, pyOrEmpty, h]
  · intro t h; simp [parse_tile_basic, pyOrEmpty, h]
  · intro t h; simp [parse_tile_basic, h]
  · intro t h; simp [parse_tile_basic, h]
  · intro t h; simp [parse_tile_basic, h]

/-- A tile with every attribute and sub-element missing. -/
def tileAllMissing : TileDom :=
  { data_shotid := none, data_titleyear := none, data_shot_status := none,
    data_title_content_status := none, gallerytitle := none,
    img_still := none, gallerythumb := none }

/-- C9 witness: the fail-soft clauses evaluated on a tile with
everything missing. -/
theorem c9_tile_fields_independent_witness :
    (parse_tile_basic tileAllMissing).shot_id = "" ∧
    (parse_tile_basic tileAllMissing).data_filename = some "" :=
  ⟨c9_tile_fields_independent.2.2.2.2.2.2.2.1 tileAllMissing rfl,
   c9_tile_fields_independent.2.2.2.2.2.2.2.2.2.2.2.2.2 tileAllMissing rfl⟩

/-- A minimal record for the persistence-writer claims. -/
def rowW : Row :=
  { basic :=
      { shot_id := "1", titleyear := "", shot_status := "",
        title_content_status := "", grid_title_raw := "",
        thumb_src := some "", data_filename := some "" }
  , details :=
      { title_year_raw := "", palette_hex := "", fields := [], image_url := "" }
  , image_path := "", image_width := "", image_height := ""
  , image_aspect_ratio_fraction := "", image_aspect_ratio_cinema := "" }

/-- C10: with an empty row list `save_progress` returns immediately and
writes nothing — the destination path is untouched — while any
non-empty row list produces a write of exactly those rows to the given
path; in particular a run that accumulated no rows produces no
spreadsheet, including at the final unconditional call. -/
theorem c10_save_progress_empty_noop :
    (∀ (all_fields : List String) (filename : String),
      save_progress [] all_fields filename = none) ∧
    (∀ (rows : List Row) (all_fields : List String) (filename : String),
      rows ≠ [] → ∃ written, save_progress rows all_fields filename = some written ∧
        written.rows = rows ∧ written.filename = filename) := by
  constructor
  · intro af fn
    rfl
  · intro rows af fn h
    match rows with
    | [] => exact absurd rfl h
    | r :: rs => exact ⟨_, rfl, rfl, rfl⟩

/-- C10 witness: the empty checkpoint writes nothing; a one-row
checkpoint writes that row. -/
theorem c10_save_progress_empty_noop_witness :
    save_progress [] ["aspect_ratio"] "out.xlsx" = none ∧
    ∃ written, save_progress [rowW] ["aspect_ratio"] "out.xlsx" = some written ∧
      written.rows = [rowW] ∧ written.filename = "out.xlsx" :=
  ⟨c10_save_progress_empty_noop.1 ["aspect_ratio"] "out.xlsx",
   c10_save_progress_empty_noop.2 [rowW] ["aspect_ratio"] "out.xlsx"
     (List.cons_ne_nil rowW [])⟩

/-! ### Concrete engine environments for the engine claims -/

/-- A modal whose dict carries no detail groups and no image URL. -/
def modalStub : ModalData :=
  { title_year_raw := "", palette_hex := "", fields := [], image_url := "" }

/-- A fetch environment for engine runs whose records carry no image. -/
def fetchStub : FetchEnv :=
  { get := fun _ => none, decode := fun _ => none }

/-- A tile carrying only the identifier attribute. -/
def tileOf (sid : String) : TileDom :=
  { data_shotid := some sid, data_titleyear := none, data_shot_status := none,
    data_title_content_status := none, gallerytitle := none,
    img_still := none, gallerythumb := none }

/-- A page whose second scan cycle repeats the tile `b` of the first
one (a scroll-driven DOM reflow) and whose height grows once and then
stalls. -/
def envReflow : ScrapeEnv :=
  { tiles := fun k =>
      if k = 0 then [tileOf "a", tileOf "b"]
      else if k = 1 then [tileOf "b", tileOf "c"]
      else []
  , heights := fun _ => 200
  , initialHeight := 100
  , processTile := fun _ => some modalStub
  , fetch := fetchStub }

/-- Parameters leaving room for every tile of `envReflow`. -/
def psReflow : ScrapeParams := { max_shots := 10, batch_size := 50, img_dir := "imgs" }

/-- The state in which the run over `envReflow` terminates. -/
def reflowFinal : EngineState :=
  (runLoop envReflow psReflow 2 (initState envReflow)).getD (initState envReflow)

/-- C1: the seen-set (`processed_shots`) only grows across the loop, and
on a run started with the empty seen-set every identifier is processed
at most once — the chronological trace of processed identifiers has no
duplicates and each of its entries is in the final seen-set — even when
a tile with the same identifier reappears in a later scan cycle. -/
theorem c1_dedup_and_seen_monotone (env : ScrapeEnv) (ps : ScrapeParams) :
    (∀ (fuel : Nat) (s r : EngineState), runLoop env ps fuel s = some r →
      s.seen ⊆ r.seen) ∧
    (∀ (fuel : Nat) (r : EngineState), runLoop env ps fuel (initState env) = some r →
      r.processedIds.Nodup ∧ ∀ x ∈ r.processedIds, x ∈ r.seen) :=
  ⟨fun fuel s r h => runLoop_seen_mono env ps fuel s r h,
   fun fuel r h => runLoop_inv env ps fuel (initState env) r h
     ⟨List.nodup_nil, by simp [initState]⟩⟩

/-- C1 witness: the reflowing page, where tile `b` is visible in two
consecutive cycles; the run terminates and its processed trace has no
duplicate. -/
theorem c1_dedup_and_seen_monotone_witness :
    runLoop envReflow psReflow 2 (initState envReflow) = some reflowFinal ∧
    reflowFinal.processedIds.Nodup ∧
    ∀ x ∈ reflowFinal.processedIds, x ∈ reflowFinal.seen :=
  ⟨rfl, (c1_dedup_and_seen_monotone envReflow psReflow).2 2 reflowFinal rfl⟩

/-- A page firing the periodic checkpoint: two tiles, batch size 1. -/
def envBatch : ScrapeEnv :=
  { tiles := fun k => if k = 0 then [tileOf "a", tileOf "b"] else []
  , heights := fun _ => 100
  , initialHeight := 100
  , processTile := fun _ => some modalStub
  , fetch := fetchStub }

/-- Batch size 1: the periodic-save condition fires on every item. -/
def psBatch : ScrapeParams := { max_shots := 2, batch_size := 1, img_dir := "imgs" }

/-- The state in which the run over `envBatch` terminates. -/
def batchFinal : EngineState :=
  (runLoop envBatch psBatch 1 (initState envBatch)).getD (initState envBatch)

/-- C2 (code bug): the periodic-save site fires after every batch — here
after each of the two processed items — but no intermediate progress
file is ever written, because line 398 evaluates `base_output_dir`, a
name local to `main` and undefined in `incremental_scrape`'s scope, so
every periodic save raises `NameError`, which the per-tile handler of
line 402 swallows.  Only the final unconditional `save_progress` call in
`main` (line 531) persists the accumulated rows. -/
theorem c2_periodic_save_never_fires :
    runLoop envBatch psBatch 1 (initState envBatch) = some batchFinal ∧
    batchFinal.count = 2 ∧
    batchFinal.saveAttempts = 2 ∧
    batchFinal.progressWrites = [] ∧
    ∃ written, save_progress batchFinal.rows batchFinal.allFields
        "shotdeck_center_composition.xlsx" = some written ∧
      written.rows = batchFinal.rows := by
  exact ⟨rfl, rfl, rfl, rfl, ⟨_, rfl, rfl⟩⟩

/-- C3: if the page's scroll height never grows past its initial value,
the loop terminates — with one unit of fuel, in particular within the
no-new-content threshold of 3 cycles — whatever `max_shots` is, and
more fuel does not change the outcome. -/
theorem c3_constant_height_terminates (env : ScrapeEnv) (ps : ScrapeParams)
    (hconst : ∀ k, env.heights k = env.initialHeight) :
    ∃ s, runLoop env ps 1 (initState env) = some s ∧
      runLoop env ps 3 (initState env) = some s ∧
      ∀ fuel, 1 ≤ fuel → runLoop env ps fuel (initState env) = some s := by
  have h1 : ∃ s, runLoop env ps 1 (initState env) = some s := by
    by_cases h : (initState env).count < ps.max_shots
    · obtain ⟨s1, hs1⟩ := runCycle_brk_of_const_height env ps (initState env) hconst rfl
      refine ⟨s1, ?_⟩
      unfold runLoop
      rw [if_pos h, hs1]
    · refine ⟨initState env, ?_⟩
      unfold runLoop
      rw [if_neg h]
  obtain ⟨s, hs⟩ := h1
  exact ⟨s, hs, runLoop_mono env ps 1 3 _ _ hs (by omega),
    fun fuel hf => runLoop_mono env ps 1 fuel _ _ hs hf⟩

/-- A page that never grows: the height after every scroll equals the
initial height. -/
def envFlat : ScrapeEnv :=
  { tiles := fun k => if k = 0 then [tileOf "a"] else []
  , heights := fun _ => 100
  , initialHeight := 100
  , processTile := fun _ => some modalStub
  , fetch := fetchStub }

/-- A huge `max_shots`, to exercise termination independently of it. -/
def psFlat : ScrapeParams :=
  { max_shots := 1000000, batch_size := 50, img_dir := "imgs" }

/-- C3 witness: the never-growing page with a huge `max_shots`. -/
theorem c3_constant_height_terminates_witness :
    ∃ s, runLoop envFlat psFlat 1 (initState envFlat) = some s ∧
      runLoop envFlat psFlat 3 (initState envFlat) = some s ∧
      ∀ fuel, 1 ≤ fuel → runLoop envFlat psFlat fuel (initState envFlat) = some s :=
  c3_constant_height_terminates envFlat psFlat (fun _ => rfl)

end ShotdeckScraper
